import Mathlib

/-!
Verification of the image identification and content-addressed mirroring core
of the Jawa-Scraper repository (`scraper/image.py`: `detect_format` and
`download`, with configuration constants from `scraper/global_vars.py`).

Modelling conventions:
* byte buffers are `List Nat`;
* Python strings are Lean `String`, with the string primitives the code uses
  (`str.replace`, `str.split('/')`, `'/'.join`, `str.startswith`, `in`,
  `str.lower`) re-implemented below by structural recursion over `String.data`
  so that every definition evaluates by kernel reduction;
* the external collaborators (`requests.get`, `uuid.uuid5`, PIL's
  `Image.open`) are abstract functions packed into an `Env` record:
  `fetch url = none` models `requests.get` raising (e.g. a timeout),
  `pillow d = none` models `Image.open` failing or reporting no format,
  and `uuid5` models `str(uuid.uuid5(uuid.NAMESPACE_URL, ·))`;
* the filesystem under the store root (`global_vars.image_save_dir`) is a
  `Store`: a list of existing directories (store-root-relative segment
  lists; the root itself always exists, `global_vars` creates it at import)
  plus a list of files (directory segments, file name, content bytes).
  Filesystem failures of `mkdir` and of the `open/write` are modelled by the
  `mkdirFails` / `writeFails` flags of `Env` (an exception at that point of
  the `try` body);
* POSIX paths: `pathlib` parsing of a relative path string collapses empty
  segments, which `dirSegs` mirrors.  A `directory_path` that starts with
  `'/'` (possible only for degenerate locators such as
  `https://www.jawa.gg//x`) makes `image_save_dir / directory_path` an
  absolute path outside the store; on a filesystem whose outside directories
  hold no matching files the code then fetches, writes outside the store and
  raises `ValueError` in `relative_to`, returning the original locator.
  `download` models that case as the `dirIsAbsolute` branch.
-/

/-- Configuration from `scraper/global_vars.py`: `image_url_prefix`, the fixed
public prefix of returned references. -/
def image_url_base : String :=
  "https://raw.githubusercontent.com/PowerPCFan/Jawa-Scraper/refs/heads/main/output/images"

/-- The source origin prefix the code tests with
`image_url.startswith('https://www.jawa.gg/')`. -/
def jawaOrigin : String := "https://www.jawa.gg/"

/-- Python `pre in s` would be `containsSub s pre`; here we need only prefix
tests: `strStartsWith s pre` models `s.startswith(pre)`. -/
def strStartsWith (s pre : String) : Bool := pre.data.isPrefixOf s.data

/-- Contiguous-sublist test (Python `in` on `bytes` and `str`). -/
def hasSubList {α : Type} [BEq α] : List α → List α → Bool
  | pat, [] => pat.isEmpty
  | pat, c :: rest => pat.isPrefixOf (c :: rest) || hasSubList pat rest

/-- Python `needle in hay` (substring containment). -/
def containsSub (hay needle : String) : Bool := hasSubList needle.data hay.data

/-- Python `s.lower()`. -/
def lowerStr (s : String) : String := ⟨s.data.map Char.toLower⟩

/-- Worker for `replaceAll`; the fuel argument equals the length of the
scanned list, so the `0` case is unreachable from `replaceAll`.  For a
nonempty pattern this is exactly Python's left-to-right non-overlapping
`str.replace`; the single use site (`jawaOrigin`) has a nonempty pattern. -/
def replaceAllGo (pat rep : List Char) : Nat → List Char → List Char
  | _, [] => []
  | 0, s => s
  | fuel + 1, c :: rest =>
    if pat ≠ [] ∧ pat.isPrefixOf (c :: rest) = true then
      rep ++ replaceAllGo pat rep fuel (rest.drop (pat.length - 1))
    else
      c :: replaceAllGo pat rep fuel rest

/-- Python `s.replace(pat, rep)` (replace all occurrences). -/
def replaceAll (s pat rep : String) : String :=
  ⟨replaceAllGo pat.data rep.data s.data.length s.data⟩

/-- Worker for `splitSlash`: accumulator-based split on `'/'`. -/
def splitSlashGo : List Char → List Char → List String
  | [], acc => [⟨acc.reverse⟩]
  | c :: rest, acc =>
    if c = '/' then ⟨acc.reverse⟩ :: splitSlashGo rest []
    else splitSlashGo rest (c :: acc)

/-- Python `s.split('/')` (always returns at least one element). -/
def splitSlash (s : String) : List String := splitSlashGo s.data []

/-- Python `'/'.join(xs)`; also `PurePosixPath.as_posix` of a segment list. -/
def joinSlash : List String → String
  | [] => ""
  | [x] => x
  | x :: y :: rest => x ++ "/" ++ joinSlash (y :: rest)

/-! ## Format Sniffer (`detect_format`, image.py lines 8–86) -/

/-- `image_data.startswith(b'\xff\xd8\xff')`. -/
def sigJpeg (d : List Nat) : Bool := [0xff, 0xd8, 0xff].isPrefixOf d

/-- `image_data.startswith(b'RIFF') and len(image_data) >= 12 and b'WEBP' in
image_data[8:12]`. -/
def sigWebp (d : List Nat) : Bool :=
  [0x52, 0x49, 0x46, 0x46].isPrefixOf d && decide (12 ≤ d.length) &&
    hasSubList [0x57, 0x45, 0x42, 0x50] ((d.drop 8).take 4)

/-- `image_data.startswith(b'\x89PNG\r\n\x1a\n')`. -/
def sigPng (d : List Nat) : Bool :=
  [0x89, 0x50, 0x4e, 0x47, 0x0d, 0x0a, 0x1a, 0x0a].isPrefixOf d

/-- `image_data.startswith(b'GIF87a') or image_data.startswith(b'GIF89a')`. -/
def sigGif (d : List Nat) : Bool :=
  [0x47, 0x49, 0x46, 0x38, 0x37, 0x61].isPrefixOf d ||
    [0x47, 0x49, 0x46, 0x38, 0x39, 0x61].isPrefixOf d

/-- `image_data.startswith(b'\x00\x00\x01\x00') or
image_data.startswith(b'\x00\x00\x02\x00')`. -/
def sigIco (d : List Nat) : Bool :=
  [0x00, 0x00, 0x01, 0x00].isPrefixOf d || [0x00, 0x00, 0x02, 0x00].isPrefixOf d

/-- `image_data.startswith(b'BM')`. -/
def sigBmp (d : List Nat) : Bool := [0x42, 0x4d].isPrefixOf d

/-- `image_data.startswith(b'II*\x00') or image_data.startswith(b'MM\x00*')`. -/
def sigTiff (d : List Nat) : Bool :=
  [0x49, 0x49, 0x2a, 0x00].isPrefixOf d || [0x4d, 0x4d, 0x00, 0x2a].isPrefixOf d

/-- `image_data.startswith(b'<?xml') or image_data.startswith(b'<svg')`. -/
def sigSvg (d : List Nat) : Bool :=
  [0x3c, 0x3f, 0x78, 0x6d, 0x6c].isPrefixOf d ||
    [0x3c, 0x73, 0x76, 0x67].isPrefixOf d

/-- `len(image_data) >= 12 and b'ftypavif' in image_data[4:12]`. -/
def sigAvif (d : List Nat) : Bool :=
  decide (12 ≤ d.length) &&
    hasSubList [0x66, 0x74, 0x79, 0x70, 0x61, 0x76, 0x69, 0x66] ((d.drop 4).take 8)

/-- `len(image_data) >= 12 and (b'ftypheic' in image_data[4:12] or
b'ftypmif1' in image_data[4:12])`. -/
def sigHeic (d : List Nat) : Bool :=
  decide (12 ≤ d.length) &&
    (hasSubList [0x66, 0x74, 0x79, 0x70, 0x68, 0x65, 0x69, 0x63] ((d.drop 4).take 8) ||
      hasSubList [0x66, 0x74, 0x79, 0x70, 0x6d, 0x69, 0x66, 0x31] ((d.drop 4).take 8))

/-- Tier 1 of `detect_format`: the magic-number `if`/`elif` chain, in source
order (jpeg, webp, png, gif, ico, bmp, tiff, svg, avif, heic). -/
def magicFormat (d : List Nat) : Option String :=
  if sigJpeg d = true then some "jpeg"
  else if sigWebp d = true then some "webp"
  else if sigPng d = true then some "png"
  else if sigGif d = true then some "gif"
  else if sigIco d = true then some "ico"
  else if sigBmp d = true then some "bmp"
  else if sigTiff d = true then some "tiff"
  else if sigSvg d = true then some "svg"
  else if sigAvif d = true then some "avif"
  else if sigHeic d = true then some "heic"
  else none

/-- Lookup of a signature by its format tag (the table of tier 1). -/
def sigHolds (f : String) (d : List Nat) : Bool :=
  if f = "jpeg" then sigJpeg d
  else if f = "webp" then sigWebp d
  else if f = "png" then sigPng d
  else if f = "gif" then sigGif d
  else if f = "ico" then sigIco d
  else if f = "bmp" then sigBmp d
  else if f = "tiff" then sigTiff d
  else if f = "svg" then sigSvg d
  else if f = "avif" then sigAvif d
  else if f = "heic" then sigHeic d
  else false

/-- The tags whose signature is a test on the buffer's prefix (all of tier 1
except the fixed-offset-window signatures avif and heic). -/
def prefixTags : List String :=
  ["jpeg", "webp", "png", "gif", "ico", "bmp", "tiff", "svg"]

/-- An HTTP response as `download`/`detect_format` observe it: body bytes,
the `content-type` header (absent when the server sent none), and
`statusOk` = `response.ok` (status < 400).  `raise_for_status()` raises
exactly when `ok` is false, and `bool(response)` (the `if response:` test in
`detect_format`) is `response.ok` as well. -/
structure Response where
  content : List Nat
  contentType : Option String
  statusOk : Bool
  deriving DecidableEq

/-- Tier 2 of `detect_format`: keyword table over the lowercased
`content-type` header, in source order. -/
def contentTypeFormat (ct : String) : Option String :=
  if containsSub ct "jpeg" || containsSub ct "jpg" then some "jpeg"
  else if containsSub ct "png" then some "png"
  else if containsSub ct "gif" then some "gif"
  else if containsSub ct "webp" then some "webp"
  else if containsSub ct "bmp" then some "bmp"
  else if containsSub ct "tiff" || containsSub ct "tif" then some "tiff"
  else if containsSub ct "svg" then some "svg"
  else if containsSub ct "avif" then some "avif"
  else if containsSub ct "heic" || containsSub ct "heif" then some "heic"
  else if containsSub ct "ico" || containsSub ct "icon" then some "ico"
  else none

/-- `if image_data:` guard plus the magic-number chain. -/
def tier1 (image_data : Option (List Nat)) : Option String :=
  match image_data with
  | none => none
  | some d => if d = [] then none else magicFormat d

/-- `if response:` guard (requests truthiness is `response.ok`) plus
`response.headers.get('content-type', '').lower()` and the keyword table. -/
def tier2 (response : Option Response) : Option String :=
  match response with
  | none => none
  | some r =>
    if r.statusOk = true then contentTypeFormat (lowerStr (r.contentType.getD ""))
    else none

/-- The Pillow tier: `Image.open` in a `try`, reading back `img.format`;
`pillow d = none` models a decode failure or a `None` format, and the
`if format_name:` truthiness test rejects an empty name. -/
def tier3 (pillow : List Nat → Option String) (image_data : Option (List Nat)) :
    Option String :=
  match image_data with
  | none => none
  | some d =>
    if d = [] then none
    else
      match pillow d with
      | none => none
      | some fmtName => if fmtName = "" then none else some (lowerStr fmtName)

/-- `detect_format(image_data, response)` (image.py lines 8–86): the
four-tier cascade with early returns; tier 4 is the final `return None`. -/
def detect_format (pillow : List Nat → Option String)
    (image_data : Option (List Nat)) (response : Option Response) : Option String :=
  match tier1 image_data with
  | some f => some f
  | none =>
    match tier2 response with
    | some f => some f
    | none => tier3 pillow image_data

/-! ## The store and the environment -/

/-- One file under the store root: its directory (as segment list relative to
the store root), its name, its bytes. -/
structure FileEntry where
  dir : List String
  name : String
  content : List Nat
  deriving DecidableEq

/-- The filesystem under `image_save_dir`: existing subdirectories (the root
`[]` always exists) and files.  Glob order is list order. -/
structure Store where
  dirs : List (List String)
  files : List FileEntry
  deriving DecidableEq

/-- `parent_dir.exists()` for a store-root-relative directory. -/
def dirExists (store : Store) (d : List String) : Bool :=
  decide (d = [] ∨ d ∈ store.dirs)

/-- A store a real filesystem can exhibit: every file's directory exists. -/
def StoreWF (store : Store) : Prop :=
  ∀ e ∈ store.files, dirExists store e.dir = true

/-- The names produced by `parent_dir.glob(f"{filename_uuid}.*")`, in store
order: files of directory `d` whose name starts with `keydot`
(= the key followed by a dot).  A UUID string contains no glob
metacharacters, and a trailing `*` matches any (possibly empty) run of
non-separator characters, so the pattern is exactly this prefix test. -/
def globKey (files : List FileEntry) (d : List String) (keydot : String) :
    List String :=
  match files with
  | [] => []
  | e :: rest =>
    if e.dir = d ∧ strStartsWith e.name keydot = true then
      e.name :: globKey rest d keydot
    else globKey rest d keydot

/-- The idempotency check of `download` (image.py lines 117–121):
`if parent_dir.exists():` then glob for `f"{filename_uuid}.*"`. -/
def existingMatches (store : Store) (d : List String) (key : String) :
    List String :=
  if dirExists store d = true then globKey store.files d (key ++ ".") else []

/-- All ancestors created by `mkdir(parents=True, exist_ok=True)` for
directory `d` (every nonempty prefix of the segment list). -/
def ancestorDirs (d : List String) : List (List String) :=
  (List.range d.length).map (fun i => d.take (i + 1))

/-- `local_file_path.parent.mkdir(parents=True, exist_ok=True)`. -/
def mkdirParents (store : Store) (d : List String) : Store :=
  ⟨store.dirs ++ ancestorDirs d, store.files⟩

/-- `open(local_file_path, 'wb')` + `write` : truncating write. -/
def writeFile (store : Store) (d : List String) (name : String)
    (content : List Nat) : Store :=
  ⟨store.dirs,
    store.files.filter (fun e => !decide (e.dir = d ∧ e.name = name)) ++
      [⟨d, name, content⟩]⟩

/-- The external collaborators of `download`, fixed for a run:
`uuid5 s` models `str(uuid.uuid5(uuid.NAMESPACE_URL, s))`;
`fetch url` models `requests.get(url, timeout=30)` (`none` = the call
raised); `pillow` is the decoder tier of the sniffer; the two flags model an
`OSError` from `mkdir` resp. from opening/writing the destination file. -/
structure Env where
  uuid5 : String → String
  fetch : String → Option Response
  pillow : List Nat → Option String
  mkdirFails : Bool
  writeFails : Bool

/-! ## Path derivation inside `download` (image.py lines 106–112) -/

/-- `original_path = image_url.replace('https://www.jawa.gg/', '')`. -/
def strippedPath (url : String) : String := replaceAll url jawaOrigin ""

/-- `path_parts = original_path.split('/')`. -/
def pathParts (url : String) : List String := splitSlash (strippedPath url)

/-- `original_filename = path_parts[-1] if path_parts else original_path`
(the split list is never empty, so this is the last segment). -/
def originalFilename (url : String) : String :=
  (pathParts url).getLastD (strippedPath url)

/-- `directory_path = '/'.join(path_parts[:-1]) if len(path_parts) > 1 else ''`. -/
def directoryPath (url : String) : String :=
  if (pathParts url).length > 1 then joinSlash (pathParts url).dropLast else ""

/-- `filename_uuid = str(uuid.uuid5(uuid.NAMESPACE_URL, original_filename))`:
the ContentKey, a function of the final path segment only. -/
def contentKey (env : Env) (url : String) : String :=
  env.uuid5 (originalFilename url)

/-- The store-root-relative segment list of the target directory:
`pathlib` parsing of `directory_path` (empty segments collapse). -/
def dirSegs (url : String) : List String :=
  (splitSlash (directoryPath url)).filter (fun seg => seg ≠ "")

/-- Whether `directory_path` is an absolute POSIX path, in which case
`image_save_dir / directory_path` discards the store root. -/
def dirIsAbsolute (url : String) : Bool :=
  strStartsWith (directoryPath url) "/"

/-- `f".{img_format}" if img_format else ".bin"` (Python truthiness: `None`
and the empty string both fall back to `.bin`). -/
def extFor (fmt : Option String) : String :=
  match fmt with
  | some f => if f = "" then ".bin" else "." ++ f
  | none => ".bin"

/-- The result of one `download` call: the returned reference string, the
store afterwards, and whether `requests.get` was invoked. -/
structure DownloadOut where
  ref : String
  store : Store
  fetched : Bool
  deriving DecidableEq

/-- `download(image_url)` (image.py lines 90–148) over a store and an
environment of collaborators.  Branches, in source order:
1. the origin guard (`not image_url or not image_url.startswith(...)`):
   passthrough;
2. the degenerate absolute `directory_path` case (see the module comment):
   fetch happens, nothing lands under the store root, `relative_to` raises
   and the `except` returns the original locator;
3. the idempotency check: an existing `{key}.*` file short-circuits to a
   reference without fetching;
4. `requests.get` raising, or `raise_for_status` on a non-ok status: caught,
   original locator returned, store untouched;
5. a `mkdir` failure: caught after the fetch, store untouched;
6. a write failure: caught, directories already created, no file written;
7. success: sniff, store `key + ext`, return the public reference. -/
def download (env : Env) (store : Store) (image_url : String) : DownloadOut :=
  if image_url = "" ∨ strStartsWith image_url jawaOrigin = false then
    ⟨image_url, store, false⟩
  else if dirIsAbsolute image_url = true then
    ⟨image_url, store, true⟩
  else
    match existingMatches store (dirSegs image_url) (contentKey env image_url) with
    | n :: _ =>
      ⟨image_url_base ++ "/" ++ joinSlash (dirSegs image_url ++ [n]), store, false⟩
    | [] =>
      match env.fetch image_url with
      | none => ⟨image_url, store, true⟩
      | some r =>
        if r.statusOk = false then ⟨image_url, store, true⟩
        else if env.mkdirFails = true then ⟨image_url, store, true⟩
        else if env.writeFails = true then
          ⟨image_url, mkdirParents store (dirSegs image_url), true⟩
        else
          ⟨image_url_base ++ "/" ++ joinSlash (dirSegs image_url ++
              [contentKey env image_url ++
                extFor (detect_format env.pillow (some r.content) (some r))]),
            writeFile (mkdirParents store (dirSegs image_url)) (dirSegs image_url)
              (contentKey env image_url ++
                extFor (detect_format env.pillow (some r.content) (some r)))
              r.content,
            true⟩

/-- The whole mutable module state of `scraper/image.py`: the module-level
`downloaded_images` set (image.py line 89, kept insertion-ordered here) and
the filesystem under the store root. -/
structure ModuleState where
  downloaded_images : List String
  store : Store

/-- `download` as an operation on the full module state.  The body of
`download` (image.py lines 90–148) contains no reference to
`downloaded_images`, so the embedding threads that component through
untouched. -/
def downloadModule (env : Env) (ms : ModuleState) (image_url : String) :
    String × ModuleState × Bool :=
  (( download env ms.store image_url).ref,
    ⟨ms.downloaded_images, (download env ms.store image_url).store⟩,
    (download env ms.store image_url).fetched)

/-! ## Basic list and string lemmas -/

theorem data_append (s t : String) : (s ++ t).data = s.data ++ t.data := by
  cases s; cases t; rfl

theorem isPrefixOf_length_le {α : Type} [BEq α] :
    ∀ p l : List α, p.isPrefixOf l = true → p.length ≤ l.length
  | [], _, _ => Nat.zero_le _
  | _ :: _, [], h => by simp [List.isPrefixOf] at h
  | a :: as, b :: bs, h => by
    simp only [List.isPrefixOf, Bool.and_eq_true] at h
    simpa using isPrefixOf_length_le as bs h.2

theorem eq_of_isPrefixOf_length {α : Type} [BEq α] [LawfulBEq α] :
    ∀ p l : List α, p.isPrefixOf l = true → p.length = l.length → p = l
  | [], [], _, _ => rfl
  | [], _ :: _, _, hl => by simp at hl
  | _ :: _, [], h, _ => by simp [List.isPrefixOf] at h
  | a :: as, b :: bs, h, hl => by
    simp only [List.isPrefixOf, Bool.and_eq_true, beq_iff_eq] at h
    simp only [List.length_cons, Nat.succ.injEq] at hl
    rw [h.1, eq_of_isPrefixOf_length as bs h.2 hl]

theorem head_of_isPrefixOf {α : Type} [BEq α] [LawfulBEq α] (a : α) (as d : List α)
    (h : (a :: as).isPrefixOf d = true) : d.head? = some a := by
  cases d with
  | nil => simp [List.isPrefixOf] at h
  | cons b bs =>
    simp only [List.isPrefixOf, Bool.and_eq_true, beq_iff_eq] at h
    simp [h.1]

theorem isPrefixOf_append_left {α : Type} [BEq α] [LawfulBEq α] (a : List α) :
    ∀ u v : List α, u.isPrefixOf v = true → (a ++ u).isPrefixOf (a ++ v) = true := by
  induction a with
  | nil => intro u v h; simpa using h
  | cons c cs ih =>
    intro u v h
    simpa [List.isPrefixOf] using ih u v h

theorem isPrefixOf_append_false {α : Type} [BEq α] :
    ∀ p a x : List α, p.isPrefixOf a = false → p.length ≤ a.length →
      p.isPrefixOf (a ++ x) = false
  | [], _, _, h1, _ => by simp [List.isPrefixOf] at h1
  | _ :: _, [], _, _, h2 => by simp at h2
  | p :: ps, b :: bs, x, h1, h2 => by
    simp only [List.isPrefixOf, Bool.and_eq_false_iff] at h1 ⊢
    rcases h1 with h1 | h1
    · exact Or.inl h1
    · exact Or.inr (isPrefixOf_append_false ps bs x h1 (by simpa using h2))

theorem hasSubList_length_le {α : Type} [BEq α] :
    ∀ p l : List α, hasSubList p l = true → p.length ≤ l.length
  | p, [], h => by
    simp only [hasSubList, List.isEmpty_iff] at h
    simp [h]
  | p, c :: rest, h => by
    simp only [hasSubList, Bool.or_eq_true] at h
    rcases h with h | h
    · exact isPrefixOf_length_le _ _ h
    · exact Nat.le_trans (hasSubList_length_le p rest h) (by simp)

theorem eq_of_hasSubList_length {α : Type} [BEq α] [LawfulBEq α]
    (p l : List α) (h : hasSubList p l = true) (hl : p.length = l.length) :
    p = l := by
  cases l with
  | nil => simpa [hasSubList, List.isEmpty_iff] using h
  | cons c rest =>
    simp only [hasSubList, Bool.or_eq_true] at h
    rcases h with h | h
    · exact eq_of_isPrefixOf_length _ _ h hl
    · have hle := hasSubList_length_le p rest h
      simp only [List.length_cons] at hl
      omega

/-! ## Store lemmas -/

theorem globKey_append (a b : List FileEntry) (d : List String) (kd : String) :
    globKey (a ++ b) d kd = globKey a d kd ++ globKey b d kd := by
  induction a with
  | nil => simp [globKey]
  | cons e rest ih =>
    simp only [List.cons_append, globKey]
    split
    · simp [ih]
    · exact ih

theorem globKey_eq_nil_iff (files : List FileEntry) (d : List String) (kd : String) :
    globKey files d kd = [] ↔
      ∀ e ∈ files, ¬(e.dir = d ∧ strStartsWith e.name kd = true) := by
  induction files with
  | nil => simp [globKey]
  | cons e rest ih =>
    simp only [globKey]
    split
    · rename_i h
      constructor
      · intro hcon; simp at hcon
      · intro hall; exact absurd h (hall e (by simp))
    · rename_i h
      rw [ih]
      constructor
      · intro hall e' he'
        rcases List.mem_cons.1 he' with rfl | he'
        · exact h
        · exact hall e' he'
      · intro hall e' he'
        exact hall e' (List.mem_cons_of_mem _ he')

theorem files_mkdirParents (store : Store) (d : List String) :
    (mkdirParents store d).files = store.files := rfl

theorem dirExists_mkdirParents (store : Store) (d : List String) :
    dirExists (mkdirParents store d) d = true := by
  rcases eq_or_ne d [] with rfl | hd
  · simp [dirExists]
  · simp only [dirExists, mkdirParents, decide_eq_true_iff]
    refine Or.inr (List.mem_append.2 (Or.inr ?_))
    simp only [ancestorDirs, List.mem_map, List.mem_range]
    refine ⟨d.length - 1, ?_, ?_⟩
    · have : 0 < d.length := List.length_pos.2 hd
      omega
    · have : 0 < d.length := List.length_pos.2 hd
      have h1 : d.length - 1 + 1 = d.length := by omega
      rw [h1, List.take_length]

/-- The written file name starts with the key followed by a dot, whatever the
sniffer produced. -/
theorem strStartsWith_key_ext (key : String) (fmt : Option String) :
    strStartsWith (key ++ extFor fmt) (key ++ ".") = true := by
  obtain ⟨t, ht⟩ : ∃ t, extFor fmt = "." ++ t := by
    cases fmt with
    | none => exact ⟨"bin", rfl⟩
    | some f =>
      rcases eq_or_ne f "" with rfl | hf
      · exact ⟨"bin", rfl⟩
      · exact ⟨f, by simp [extFor, hf]⟩
  rw [ht]
  unfold strStartsWith
  rw [data_append, data_append, data_append]
  apply isPrefixOf_append_left
  have hdot : ("." : String).data = ['.'] := rfl
  rw [hdot]
  simp [List.isPrefixOf]

/-- After a successful write, the glob of the target directory for the key
finds exactly the written file, provided it found nothing before. -/
theorem existingMatches_after_write (store : Store) (d : List String)
    (key : String) (fmt : Option String) (content : List Nat)
    (hWF : StoreWF store)
    (hex : existingMatches store d key = []) :
    existingMatches
        (writeFile (mkdirParents store d) d (key ++ extFor fmt) content) d key =
      [key ++ extFor fmt] := by
  have hfail : ∀ e ∈ store.files, ¬(e.dir = d ∧ strStartsWith e.name (key ++ ".") = true) := by
    by_cases hde : dirExists store d = true
    · rw [existingMatches, if_pos hde] at hex
      exact (globKey_eq_nil_iff store.files d (key ++ ".")).1 hex
    · intro e he hcon
      exact hde (hcon.1 ▸ hWF e he)
  have hdir : dirExists (writeFile (mkdirParents store d) d (key ++ extFor fmt) content) d = true :=
    dirExists_mkdirParents store d
  have h2 : globKey (store.files.filter
      (fun e => !decide (e.dir = d ∧ e.name = key ++ extFor fmt))) d (key ++ ".") = [] := by
    rw [globKey_eq_nil_iff]
    intro e he
    exact hfail e (List.mem_filter.1 he).1
  have hfiles : (writeFile (mkdirParents store d) d (key ++ extFor fmt) content).files =
      store.files.filter (fun e => !decide (e.dir = d ∧ e.name = key ++ extFor fmt)) ++
        [⟨d, key ++ extFor fmt, content⟩] := rfl
  unfold existingMatches
  rw [if_pos hdir, hfiles, globKey_append, h2]
  simp [globKey, strStartsWith_key_ext key fmt]

/-! ## Evaluation lemmas for `download` -/

theorem strStartsWith_empty_jawa : strStartsWith "" jawaOrigin = false := by decide

theorem download_of_foreign (env : Env) (store : Store) (url : String)
    (h : strStartsWith url jawaOrigin = false) :
    download env store url = ⟨url, store, false⟩ := by
  unfold download
  rw [if_pos (Or.inr h)]

theorem ne_empty_of_accepted (url : String)
    (hacc : strStartsWith url jawaOrigin = true) : url ≠ "" := by
  intro h
  rw [h, strStartsWith_empty_jawa] at hacc
  exact Bool.false_ne_true hacc

theorem download_found (env : Env) (store : Store) (url : String)
    (n : String) (rest : List String)
    (hacc : strStartsWith url jawaOrigin = true)
    (habs : dirIsAbsolute url = false)
    (hex : existingMatches store (dirSegs url) (contentKey env url) = n :: rest) :
    download env store url =
      ⟨image_url_base ++ "/" ++ joinSlash (dirSegs url ++ [n]), store, false⟩ := by
  have hg : ¬(url = "" ∨ strStartsWith url jawaOrigin = false) := by
    rintro (h | h)
    · exact ne_empty_of_accepted url hacc h
    · rw [hacc] at h; exact absurd h (by decide)
  have hb : ¬(dirIsAbsolute url = true) := by rw [habs]; exact Bool.false_ne_true
  unfold download
  rw [if_neg hg, if_neg hb, hex]

theorem download_write (env : Env) (store : Store) (url : String) (r : Response)
    (hacc : strStartsWith url jawaOrigin = true)
    (habs : dirIsAbsolute url = false)
    (hex : existingMatches store (dirSegs url) (contentKey env url) = [])
    (hf : env.fetch url = some r)
    (hok : r.statusOk = true)
    (hmk : env.mkdirFails = false)
    (hwr : env.writeFails = false) :
    download env store url =
      ⟨image_url_base ++ "/" ++ joinSlash (dirSegs url ++
          [contentKey env url ++
            extFor (detect_format env.pillow (some r.content) (some r))]),
        writeFile (mkdirParents store (dirSegs url)) (dirSegs url)
          (contentKey env url ++
            extFor (detect_format env.pillow (some r.content) (some r)))
          r.content,
        true⟩ := by
  have hg : ¬(url = "" ∨ strStartsWith url jawaOrigin = false) := by
    rintro (h | h)
    · exact ne_empty_of_accepted url hacc h
    · rw [hacc] at h; exact absurd h (by decide)
  have hb : ¬(dirIsAbsolute url = true) := by rw [habs]; exact Bool.false_ne_true
  unfold download
  rw [if_neg hg, if_neg hb, hex, hf]
  simp [hok, hmk, hwr]

/-! ## Claims -/

/-- C3: for every locator string that does not start with the configured
source origin prefix (which includes the empty string, since no string
starts with a longer prefix), `download` returns the locator unchanged,
performs no fetch and leaves the store untouched, and this for every store,
so the result is independent of the store's contents. -/
theorem claim3_passthrough_foreign_locator (env : Env) (store : Store)
    (url : String) (h : strStartsWith url jawaOrigin = false) :
    download env store url = ⟨url, store, false⟩ :=
  download_of_foreign env store url h

/-- Witness for C3 at the empty locator and a nonempty store. -/
theorem claim3_passthrough_foreign_locator_witness :
    strStartsWith "" jawaOrigin = false ∧
      download ⟨fun _ => "k", fun _ => none, fun _ => none, false, false⟩
          ⟨[["img"]], [⟨["img"], "k.jpeg", [1, 2]⟩]⟩ "" =
        ⟨"", ⟨[["img"]], [⟨["img"], "k.jpeg", [1, 2]⟩]⟩, false⟩ :=
  ⟨by decide,
    claim3_passthrough_foreign_locator _ _ "" (by decide)⟩

/-- C5: the ContentKey (`filename_uuid`) is a function of the locator's
final path segment only: any two origin-prefixed locators whose
domain-stripped paths share the last segment receive the same key
(`uuid.uuid5(uuid.NAMESPACE_URL, original_filename)` is modelled by the
deterministic `env.uuid5`); determinism across repeated runs is the
functionality of `contentKey` itself. -/
theorem claim5_content_key_last_segment (env : Env) (u1 u2 : String)
    (h1 : strStartsWith u1 jawaOrigin = true)
    (h2 : strStartsWith u2 jawaOrigin = true)
    (hseg : originalFilename u1 = originalFilename u2) :
    contentKey env u1 = contentKey env u2 ∧
      contentKey env u1 = env.uuid5 (originalFilename u1) := by
  constructor
  · unfold contentKey
    rw [hseg]
  · rfl

/-- Witness for C5: two locators with different directory prefixes and the
same trailing segment collide to the same key. -/
theorem claim5_content_key_last_segment_witness :
    contentKey ⟨fun s => "uuid5:" ++ s, fun _ => none, fun _ => none, false, false⟩
        "https://www.jawa.gg/a/x.png" =
      contentKey ⟨fun s => "uuid5:" ++ s, fun _ => none, fun _ => none, false, false⟩
        "https://www.jawa.gg/b/c/x.png" :=
  (claim5_content_key_last_segment _ _ _ (by decide) (by decide) (by decide)).1

/-- C9: `download` neither reads nor writes any in-process mutable state:
the module-level `downloaded_images` set survives every call unchanged, and
the call's outputs (reference, resulting store, whether a fetch happened)
do not depend on it — they are a function of the locator, the store and the
collaborators only. -/
theorem claim9_no_global_state (env : Env) (ms : ModuleState) (url : String) :
    (downloadModule env ms url).2.1.downloaded_images = ms.downloaded_images ∧
      ∀ other : List String,
        (downloadModule env ⟨other, ms.store⟩ url).1 = (downloadModule env ms url).1 ∧
        (downloadModule env ⟨other, ms.store⟩ url).2.1.store =
          (downloadModule env ms url).2.1.store ∧
        (downloadModule env ⟨other, ms.store⟩ url).2.2 = (downloadModule env ms url).2.2 :=
  ⟨rfl, fun _ => ⟨rfl, rfl, rfl⟩⟩

/-- C2: `download` is total (the embedding is a total function) and every
internal failure — `requests.get` raising, a non-success status flagged by
`raise_for_status`, a directory-creation error, a write error — degrades to
returning the original locator whenever a fetch was attempted, and never
adds a file to the store; in particular a failing fetch leaves the store's
files exactly as they were. -/
theorem claim2_no_raise_degrades (env : Env) (store : Store) (url : String)
    (hfail : env.fetch url = none ∨
      (∃ r, env.fetch url = some r ∧ r.statusOk = false) ∨
      env.mkdirFails = true ∨ env.writeFails = true) :
    ((download env store url).fetched = true → (download env store url).ref = url) ∧
      (download env store url).store.files = store.files := by
  unfold download
  by_cases hg : url = "" ∨ strStartsWith url jawaOrigin = false
  · rw [if_pos hg]
    exact ⟨fun h => by simp at h, rfl⟩
  · rw [if_neg hg]
    by_cases hb : dirIsAbsolute url = true
    · rw [if_pos hb]
      exact ⟨fun _ => rfl, rfl⟩
    · rw [if_neg hb]
      cases hex : existingMatches store (dirSegs url) (contentKey env url) with
      | cons n rest => exact ⟨fun h => by simp at h, rfl⟩
      | nil =>
        cases hf : env.fetch url with
        | none => exact ⟨fun _ => rfl, rfl⟩
        | some r =>
          dsimp only
          by_cases hok : r.statusOk = false
          · rw [if_pos hok]
            exact ⟨fun _ => rfl, rfl⟩
          · rw [if_neg hok]
            by_cases hmk : env.mkdirFails = true
            · rw [if_pos hmk]
              exact ⟨fun _ => rfl, rfl⟩
            · rw [if_neg hmk]
              by_cases hwr : env.writeFails = true
              · rw [if_pos hwr]
                exact ⟨fun _ => rfl, files_mkdirParents store (dirSegs url)⟩
              · exfalso
                rcases hfail with h | ⟨r', hr', hok'⟩ | h | h
                · rw [hf] at h; exact Option.noConfusion h
                · rw [hf] at hr'
                  injection hr' with hrr
                  rw [← hrr] at hok'
                  exact hok hok'
                · exact hmk h
                · exact hwr h

/-- Witness for C2: a fetch collaborator that raises a timeout — the
original locator comes back and the store's files are untouched. -/
theorem claim2_no_raise_degrades_witness :
    ((download ⟨fun _ => "k", fun _ => none, fun _ => none, false, false⟩
          ⟨[], []⟩ "https://www.jawa.gg/img/a.jpg").fetched = true →
        (download ⟨fun _ => "k", fun _ => none, fun _ => none, false, false⟩
          ⟨[], []⟩ "https://www.jawa.gg/img/a.jpg").ref = "https://www.jawa.gg/img/a.jpg") ∧
      (download ⟨fun _ => "k", fun _ => none, fun _ => none, false, false⟩
          ⟨[], []⟩ "https://www.jawa.gg/img/a.jpg").store.files = Store.files ⟨[], []⟩ :=
  claim2_no_raise_degrades _ _ _ (Or.inl rfl)

/-- C6: tier-1 precedence — whenever the magic-number table of tier 1
classifies a buffer (first match in the listed order), the buffer does
satisfy that signature and `detect_format` returns that tag no matter what
response metadata (and Pillow behaviour) is supplied alongside. -/
theorem claim6_tier1_precedence (d : List Nat) (f : String)
    (h : magicFormat d = some f) :
    sigHolds f d = true ∧
      ∀ (pillow : List Nat → Option String) (resp : Option Response),
        detect_format pillow (some d) resp = some f := by
  have hd : d ≠ [] := by
    intro hnil
    rw [hnil] at h
    have hmf : magicFormat [] = none := by decide
    rw [hmf] at h
    exact Option.noConfusion h
  constructor
  · unfold magicFormat at h
    by_cases h1 : sigJpeg d = true
    · rw [if_pos h1] at h
      injection h with hf
      subst hf
      exact h1
    · rw [if_neg h1] at h
      by_cases h2 : sigWebp d = true
      · rw [if_pos h2] at h
        injection h with hf
        subst hf
        exact h2
      · rw [if_neg h2] at h
        by_cases h3 : sigPng d = true
        · rw [if_pos h3] at h
          injection h with hf
          subst hf
          exact h3
        · rw [if_neg h3] at h
          by_cases h4 : sigGif d = true
          · rw [if_pos h4] at h
            injection h with hf
            subst hf
            exact h4
          · rw [if_neg h4] at h
            by_cases h5 : sigIco d = true
            · rw [if_pos h5] at h
              injection h with hf
              subst hf
              exact h5
            · rw [if_neg h5] at h
              by_cases h6 : sigBmp d = true
              · rw [if_pos h6] at h
                injection h with hf
                subst hf
                exact h6
              · rw [if_neg h6] at h
                by_cases h7 : sigTiff d = true
                · rw [if_pos h7] at h
                  injection h with hf
                  subst hf
                  exact h7
                · rw [if_neg h7] at h
                  by_cases h8 : sigSvg d = true
                  · rw [if_pos h8] at h
                    injection h with hf
                    subst hf
                    exact h8
                  · rw [if_neg h8] at h
                    by_cases h9 : sigAvif d = true
                    · rw [if_pos h9] at h
                      injection h with hf
                      subst hf
                      exact h9
                    · rw [if_neg h9] at h
                      by_cases h10 : sigHeic d = true
                      · rw [if_pos h10] at h
                        injection h with hf
                        subst hf
                        exact h10
                      · rw [if_neg h10] at h
                        exact Option.noConfusion h
  · have ht : tier1 (some d) = some f := by
      unfold tier1
      dsimp only
      rw [if_neg hd]
      exact h
    intro pillow resp
    unfold detect_format
    rw [ht]

/-- Witness for C6: jpeg magic bytes win over a contradictory
`content-type: image/png` header and over any Pillow verdict. -/
theorem claim6_tier1_precedence_witness :
    sigHolds "jpeg" [0xff, 0xd8, 0xff] = true ∧
      detect_format (fun _ => some "png") (some [0xff, 0xd8, 0xff])
        (some ⟨[0xff, 0xd8, 0xff], some "image/png", true⟩) = some "jpeg" :=
  ⟨(claim6_tier1_precedence [0xff, 0xd8, 0xff] "jpeg" (by decide)).1,
    (claim6_tier1_precedence [0xff, 0xd8, 0xff] "jpeg" (by decide)).2
      (fun _ => some "png") (some ⟨[0xff, 0xd8, 0xff], some "image/png", true⟩)⟩

/-! ## C7: signature overlap machinery -/

/-- The first byte a prefix-tested signature forces. -/
def headOK (f : String) (b : Nat) : Bool :=
  if f = "jpeg" then b == 0xff
  else if f = "webp" then b == 0x52
  else if f = "png" then b == 0x89
  else if f = "gif" then b == 0x47
  else if f = "ico" then b == 0x00
  else if f = "bmp" then b == 0x42
  else if f = "tiff" then b == 0x49 || b == 0x4d
  else if f = "svg" then b == 0x3c
  else false

theorem headOK_of_sig :
    ∀ f ∈ prefixTags, ∀ d : List Nat, sigHolds f d = true →
      ∃ b, d.head? = some b ∧ headOK f b = true := by
  intro f hf d h
  fin_cases hf
  · exact ⟨0xff, head_of_isPrefixOf 0xff [0xd8, 0xff] d h, by decide⟩
  · have h' : sigWebp d = true := h
    unfold sigWebp at h'
    simp only [Bool.and_eq_true] at h'
    exact ⟨0x52, head_of_isPrefixOf 0x52 [0x49, 0x46, 0x46] d h'.1.1, by decide⟩
  · exact ⟨0x89, head_of_isPrefixOf 0x89 [0x50, 0x4e, 0x47, 0x0d, 0x0a, 0x1a, 0x0a] d h,
      by decide⟩
  · have h' : sigGif d = true := h
    unfold sigGif at h'
    simp only [Bool.or_eq_true] at h'
    rcases h' with h' | h' <;>
      exact ⟨0x47, head_of_isPrefixOf 0x47 _ d h', by decide⟩
  · have h' : sigIco d = true := h
    unfold sigIco at h'
    simp only [Bool.or_eq_true] at h'
    rcases h' with h' | h' <;>
      exact ⟨0x00, head_of_isPrefixOf 0x00 _ d h', by decide⟩
  · exact ⟨0x42, head_of_isPrefixOf 0x42 [0x4d] d h, by decide⟩
  · have h' : sigTiff d = true := h
    unfold sigTiff at h'
    simp only [Bool.or_eq_true] at h'
    rcases h' with h' | h'
    · exact ⟨0x49, head_of_isPrefixOf 0x49 _ d h', by decide⟩
    · exact ⟨0x4d, head_of_isPrefixOf 0x4d _ d h', by decide⟩
  · have h' : sigSvg d = true := h
    unfold sigSvg at h'
    simp only [Bool.or_eq_true] at h'
    rcases h' with h' | h' <;>
      exact ⟨0x3c, head_of_isPrefixOf 0x3c _ d h', by decide⟩

theorem headOK_disjoint :
    ∀ f1 ∈ prefixTags, ∀ f2 ∈ prefixTags, ∀ b : Nat,
      headOK f1 b = true → headOK f2 b = true → f1 = f2 := by
  intro f1 h1 f2 h2 b hb1 hb2
  fin_cases h1 <;> fin_cases h2 <;>
    first
      | rfl
      | (exfalso; simp [headOK] at hb1 hb2; omega)

/-- The eight-byte window `image_data[4:12]` forced by the avif signature. -/
theorem sigAvif_window (d : List Nat) (h : sigAvif d = true) :
    (d.drop 4).take 8 = [0x66, 0x74, 0x79, 0x70, 0x61, 0x76, 0x69, 0x66] := by
  unfold sigAvif at h
  simp only [Bool.and_eq_true, decide_eq_true_eq] at h
  refine (eq_of_hasSubList_length _ _ h.2 ?_).symm
  simp only [List.length_take, List.length_drop, List.length_cons, List.length_nil]
  omega

/-- The eight-byte window forced by the heic signature. -/
theorem sigHeic_window (d : List Nat) (h : sigHeic d = true) :
    (d.drop 4).take 8 = [0x66, 0x74, 0x79, 0x70, 0x68, 0x65, 0x69, 0x63] ∨
      (d.drop 4).take 8 = [0x66, 0x74, 0x79, 0x70, 0x6d, 0x69, 0x66, 0x31] := by
  unfold sigHeic at h
  simp only [Bool.and_eq_true, Bool.or_eq_true, decide_eq_true_eq] at h
  rcases h.2 with h' | h'
  · refine Or.inl (eq_of_hasSubList_length _ _ h' ?_).symm
    simp only [List.length_take, List.length_drop, List.length_cons, List.length_nil]
    omega
  · refine Or.inr (eq_of_hasSubList_length _ _ h' ?_).symm
    simp only [List.length_take, List.length_drop, List.length_cons, List.length_nil]
    omega

/-- C7 counterexample: the table's patterns are NOT mutually exclusive — the
12-byte buffer `BM??ftypavif` satisfies both the bmp signature (prefix `BM`)
and the avif signature (`ftypavif` at bytes 4–12); two distinct patterns
match one buffer, and the chain resolves the overlap by order, returning
bmp.  Testing avif before bmp would return avif instead, so permuting the
test order does change the result. -/
theorem claim7_counterexample :
    sigBmp [0x42, 0x4d, 0, 0, 0x66, 0x74, 0x79, 0x70, 0x61, 0x76, 0x69, 0x66] = true ∧
      sigAvif [0x42, 0x4d, 0, 0, 0x66, 0x74, 0x79, 0x70, 0x61, 0x76, 0x69, 0x66] = true ∧
      ("bmp" : String) ≠ "avif" ∧
      magicFormat [0x42, 0x4d, 0, 0, 0x66, 0x74, 0x79, 0x70, 0x61, 0x76, 0x69, 0x66] =
        some "bmp" := by
  decide

/-- C7 (amended): the eight prefix-tested signatures (jpeg, webp, png, gif,
ico, bmp, tiff, svg) are mutually exclusive among themselves, and the two
window signatures (avif, heic) are mutually exclusive with each other; but a
window signature can co-occur with a prefix signature (see the
counterexample), so test order does matter there: `detect_format` is
first-match-wins in the listed order and returns the earlier (prefix)
format on such overlaps, e.g. bmp for `BM??ftypavif`. -/
theorem claim7_amended :
    (∀ (d : List Nat), ∀ f1 ∈ prefixTags, ∀ f2 ∈ prefixTags,
        sigHolds f1 d = true → sigHolds f2 d = true → f1 = f2) ∧
      (∀ d : List Nat, ¬(sigAvif d = true ∧ sigHeic d = true)) ∧
      (∀ (pillow : List Nat → Option String) (resp : Option Response),
        detect_format pillow
          (some [0x42, 0x4d, 0, 0, 0x66, 0x74, 0x79, 0x70, 0x61, 0x76, 0x69, 0x66]) resp =
          some "bmp") := by
  refine ⟨?_, ?_, ?_⟩
  · intro d f1 h1 f2 h2 hs1 hs2
    obtain ⟨b, hb, hk1⟩ := headOK_of_sig f1 h1 d hs1
    obtain ⟨b', hb', hk2⟩ := headOK_of_sig f2 h2 d hs2
    rw [hb] at hb'
    injection hb' with hbb
    rw [← hbb] at hk2
    exact headOK_disjoint f1 h1 f2 h2 b hk1 hk2
  · rintro d ⟨ha, hh⟩
    have hav := sigAvif_window d ha
    rcases sigHeic_window d hh with hw | hw <;>
      (rw [hav] at hw; exact absurd hw (by decide))
  · intro pillow resp
    have ht :
        tier1 (some [0x42, 0x4d, 0, 0, 0x66, 0x74, 0x79, 0x70, 0x61, 0x76, 0x69, 0x66]) =
          some "bmp" := by decide
    unfold detect_format
    rw [ht]

/-- Witness for C7 (amended), at concrete inputs: png matched against itself
among the prefix signatures, the avif/heic exclusion at the empty buffer,
and the overlap buffer resolved to bmp under a concrete Pillow double and no
response. -/
theorem claim7_amended_witness :
    ("png" : String) = "png" ∧
      ¬(sigAvif [] = true ∧ sigHeic [] = true) ∧
      detect_format (fun _ => none)
        (some [0x42, 0x4d, 0, 0, 0x66, 0x74, 0x79, 0x70, 0x61, 0x76, 0x69, 0x66]) none =
        some "bmp" :=
  ⟨claim7_amended.1 [0x89, 0x50, 0x4e, 0x47, 0x0d, 0x0a, 0x1a, 0x0a] "png" (by decide)
      "png" (by decide) (by decide) (by decide),
    claim7_amended.2.1 [],
    claim7_amended.2.2 (fun _ => none) none⟩

/-- C8: when the sniffer reports unknown (`detect_format` returns `None`,
e.g. an empty body with no matching content-type and a failing decoder),
`download` does not fail: it stores the fetched bytes anyway under the
generic fallback name `ContentKey + ".bin"` in the target directory and
returns the corresponding public reference. -/
theorem claim8_fallback_bin (env : Env) (store : Store) (url : String) (r : Response)
    (hacc : strStartsWith url jawaOrigin = true)
    (habs : dirIsAbsolute url = false)
    (hno : globKey store.files (dirSegs url) (contentKey env url ++ ".") = [])
    (hf : env.fetch url = some r)
    (hok : r.statusOk = true)
    (hmk : env.mkdirFails = false)
    (hwr : env.writeFails = false)
    (hfmt : detect_format env.pillow (some r.content) (some r) = none) :
    download env store url =
      ⟨image_url_base ++ "/" ++
          joinSlash (dirSegs url ++ [contentKey env url ++ ".bin"]),
        writeFile (mkdirParents store (dirSegs url)) (dirSegs url)
          (contentKey env url ++ ".bin") r.content,
        true⟩ := by
  have hex : existingMatches store (dirSegs url) (contentKey env url) = [] := by
    unfold existingMatches
    rw [hno]
    simp
  have h1 := download_write env store url r hacc habs hex hf hok hmk hwr
  rw [hfmt] at h1
  exact h1

/-- Witness for C8: empty body, no content-type, failing decoder — the file
is stored as `<key>.bin` and the reference points at it. -/
theorem claim8_fallback_bin_witness :
    download ⟨fun _ => "k8", fun _ => some ⟨[], none, true⟩, fun _ => none, false, false⟩
        ⟨[], []⟩ "https://www.jawa.gg/img/empty.dat" =
      ⟨image_url_base ++ "/" ++ "img/k8.bin",
        ⟨[["img"]], [⟨["img"], "k8.bin", []⟩]⟩, true⟩ := by
  exact claim8_fallback_bin
    ⟨fun _ => "k8", fun _ => some ⟨[], none, true⟩, fun _ => none, false, false⟩
    ⟨[], []⟩ "https://www.jawa.gg/img/empty.dat" ⟨[], none, true⟩
    (by decide) (by decide) (by decide) rfl rfl rfl rfl (by decide)

/-- C4: success path for an origin-prefixed locator with directory segments
and no stored file for the key — the fetched bytes are sniffed to a format
`F`, stored at `store_root/<directory_path>/<ContentKey>.<F>`, and the
returned reference is exactly the public prefix joined with `'/'` to the
file's store-relative path in forward-slash form. -/
theorem claim4_stores_and_returns_reference (env : Env) (store : Store)
    (url : String) (r : Response) (F : String)
    (hacc : strStartsWith url jawaOrigin = true)
    (habs : dirIsAbsolute url = false)
    (hdir : dirSegs url ≠ [])
    (hno : globKey store.files (dirSegs url) (contentKey env url ++ ".") = [])
    (hf : env.fetch url = some r)
    (hok : r.statusOk = true)
    (hmk : env.mkdirFails = false)
    (hwr : env.writeFails = false)
    (hfmt : detect_format env.pillow (some r.content) (some r) = some F)
    (hFne : F ≠ "") :
    download env store url =
      ⟨image_url_base ++ "/" ++
          joinSlash (dirSegs url ++ [contentKey env url ++ "." ++ F]),
        writeFile (mkdirParents store (dirSegs url)) (dirSegs url)
          (contentKey env url ++ "." ++ F) r.content,
        true⟩ := by
  have hex : existingMatches store (dirSegs url) (contentKey env url) = [] := by
    unfold existingMatches
    rw [hno]
    simp
  have h1 := download_write env store url r hacc habs hex hf hok hmk hwr
  rw [hfmt] at h1
  have hext : extFor (some F) = "." ++ F := by
    unfold extFor
    dsimp only
    rw [if_neg hFne]
  rw [hext] at h1
  have hassoc : contentKey env url ++ ("." ++ F) = contentKey env url ++ "." ++ F := by
    apply String.ext
    simp only [data_append, List.append_assoc]
  rw [hassoc] at h1
  exact h1

/-- Witness for C4, the spec's scenario transposed to the configured origin:
jpeg magic bytes under `img/photo.jpg` produce `img/<key>.jpeg` and the
matching public reference. -/
theorem claim4_stores_and_returns_reference_witness :
    download
        ⟨fun _ => "k4", fun _ => some ⟨[0xff, 0xd8, 0xff, 0x10], some "image/jpeg", true⟩,
          fun _ => none, false, false⟩
        ⟨[], []⟩ "https://www.jawa.gg/img/photo.jpg" =
      ⟨image_url_base ++ "/" ++ "img/k4.jpeg",
        ⟨[["img"]], [⟨["img"], "k4.jpeg", [0xff, 0xd8, 0xff, 0x10]⟩]⟩, true⟩ := by
  exact claim4_stores_and_returns_reference
    ⟨fun _ => "k4", fun _ => some ⟨[0xff, 0xd8, 0xff, 0x10], some "image/jpeg", true⟩,
      fun _ => none, false, false⟩
    ⟨[], []⟩ "https://www.jawa.gg/img/photo.jpg"
    ⟨[0xff, 0xd8, 0xff, 0x10], some "image/jpeg", true⟩ "jpeg"
    (by decide) (by decide) (by decide) (by decide) rfl rfl rfl rfl (by decide)
    (by decide)

/-- C1: idempotency of `download` for a mirrorable locator in an environment
where the first mirroring can complete (fetch succeeds with an ok status,
directory creation and the write succeed, the derived directory stays under
the store root): whether the first call finds an already-stored file or
fetches and stores one, the second call over the persisted store returns
the same reference and performs no fetch, because the stored file whose
name starts with the ContentKey followed by a dot is found by the glob. -/
theorem claim1_ensure_mirrored_idempotent (env : Env) (store : Store)
    (url : String) (r : Response)
    (hWF : StoreWF store)
    (hacc : strStartsWith url jawaOrigin = true)
    (habs : dirIsAbsolute url = false)
    (hf : env.fetch url = some r)
    (hok : r.statusOk = true)
    (hmk : env.mkdirFails = false)
    (hwr : env.writeFails = false) :
    (download env (download env store url).store url).ref =
        (download env store url).ref ∧
      (download env (download env store url).store url).fetched = false := by
  cases hex : existingMatches store (dirSegs url) (contentKey env url) with
  | cons n rest =>
    have h1 := download_found env store url n rest hacc habs hex
    rw [h1]
    dsimp only
    rw [h1]
    exact ⟨rfl, rfl⟩
  | nil =>
    have h1 := download_write env store url r hacc habs hex hf hok hmk hwr
    have hex2 := existingMatches_after_write store (dirSegs url) (contentKey env url)
      (detect_format env.pillow (some r.content) (some r)) r.content hWF hex
    have h2 := download_found env
      (writeFile (mkdirParents store (dirSegs url)) (dirSegs url)
        (contentKey env url ++
          extFor (detect_format env.pillow (some r.content) (some r)))
        r.content)
      url
      (contentKey env url ++ extFor (detect_format env.pillow (some r.content) (some r)))
      [] hacc habs hex2
    rw [h1]
    dsimp only
    rw [h2]
    exact ⟨rfl, rfl⟩

/-- Witness for C1: a fresh store, a fetch double returning jpeg bytes — two
consecutive calls agree on the reference and the second does not fetch. -/
theorem claim1_ensure_mirrored_idempotent_witness :
    (download ⟨fun _ => "k1", fun _ => some ⟨[0xff, 0xd8, 0xff], some "image/jpeg", true⟩,
          fun _ => none, false, false⟩
        (download ⟨fun _ => "k1", fun _ => some ⟨[0xff, 0xd8, 0xff], some "image/jpeg", true⟩,
            fun _ => none, false, false⟩ ⟨[], []⟩ "https://www.jawa.gg/img/a.jpg").store
        "https://www.jawa.gg/img/a.jpg").ref =
      (download ⟨fun _ => "k1", fun _ => some ⟨[0xff, 0xd8, 0xff], some "image/jpeg", true⟩,
          fun _ => none, false, false⟩ ⟨[], []⟩ "https://www.jawa.gg/img/a.jpg").ref ∧
    (download ⟨fun _ => "k1", fun _ => some ⟨[0xff, 0xd8, 0xff], some "image/jpeg", true⟩,
          fun _ => none, false, false⟩
        (download ⟨fun _ => "k1", fun _ => some ⟨[0xff, 0xd8, 0xff], some "image/jpeg", true⟩,
            fun _ => none, false, false⟩ ⟨[], []⟩ "https://www.jawa.gg/img/a.jpg").store
        "https://www.jawa.gg/img/a.jpg").fetched = false := by
  exact claim1_ensure_mirrored_idempotent
    ⟨fun _ => "k1", fun _ => some ⟨[0xff, 0xd8, 0xff], some "image/jpeg", true⟩,
      fun _ => none, false, false⟩
    ⟨[], []⟩ "https://www.jawa.gg/img/a.jpg" ⟨[0xff, 0xd8, 0xff], some "image/jpeg", true⟩
    (by intro e he; simp at he) (by decide) (by decide) rfl rfl rfl rfl

/-- The public reference prefix does not start with the source origin, so
any string of the form `image_url_base ++ "/" ++ rel` fails the origin
guard. -/
theorem jawa_not_prefix_of_public (rel : String) :
    strStartsWith (image_url_base ++ "/" ++ rel) jawaOrigin = false := by
  unfold strStartsWith
  rw [data_append, data_append]
  exact isPrefixOf_append_false _ _ _ (by decide) (by decide)

/-- C10: mirrored references are fixed points of `download`: whenever a call
returns a reference of the mirrored shape (the public prefix, a slash, a
relative path), feeding that reference back to `download` — under any
environment and any store — returns it unchanged with no fetch and no store
change, because the public prefix does not start with the source origin
prefix and the reference therefore takes the passthrough branch. -/
theorem claim10_mirrored_fixed_point (env : Env) (store : Store) (url : String)
    (env2 : Env) (store2 : Store) (rel : String)
    (h : (download env store url).ref = image_url_base ++ "/" ++ rel) :
    download env2 store2 ((download env store url).ref) =
      ⟨(download env store url).ref, store2, false⟩ := by
  rw [h]
  exact download_of_foreign env2 store2 _ (jawa_not_prefix_of_public rel)

/-- Witness for C10: a store already holding `img/k.jpeg` produces a
mirrored reference, and re-mirroring that reference is the identity with no
fetch. -/
theorem claim10_mirrored_fixed_point_witness :
    download ⟨fun _ => "k", fun _ => none, fun _ => none, false, false⟩ ⟨[], []⟩
        ((download ⟨fun _ => "k", fun _ => none, fun _ => none, false, false⟩
            ⟨[["img"]], [⟨["img"], "k.jpeg", [7]⟩]⟩ "https://www.jawa.gg/img/photo.jpg").ref) =
      ⟨(download ⟨fun _ => "k", fun _ => none, fun _ => none, false, false⟩
            ⟨[["img"]], [⟨["img"], "k.jpeg", [7]⟩]⟩ "https://www.jawa.gg/img/photo.jpg").ref,
        ⟨[], []⟩, false⟩ := by
  exact claim10_mirrored_fixed_point
    ⟨fun _ => "k", fun _ => none, fun _ => none, false, false⟩
    ⟨[["img"]], [⟨["img"], "k.jpeg", [7]⟩]⟩ "https://www.jawa.gg/img/photo.jpg"
    ⟨fun _ => "k", fun _ => none, fun _ => none, false, false⟩ ⟨[], []⟩
    "img/k.jpeg" (by decide)
